import Mathlib

/-!
Verification development for the cs-agent-service orchestration engine.

The definitions below are a shallow embedding of the Python sources:
  - src/src/agent.py          (BaseAgent.invoke, AgentService dispatch methods,
                               AgentService._resolve_prompt and the prompt fetchers)
  - src/src/prompt_resolver.py (resolve_prompt fallback chain)
  - src/src/mcp_tool_loader.py (MCPToolLoader.load_tools TTL cache,
                               load_tools_sync, _wrap_tool_with_auth)
  - src/src/utils/secrets.py   (credential lookup, abstracted as a parameter)

The opaque LLM completion capability is modelled as a per-agent function
of type String to Except String String: an ok value is the generated text,
an error value is a raised exception carrying its message. Network and
filesystem lookups are modelled as Option-valued parameters (some means the
call succeeded with that payload, none means it failed or was absent).
Python truthiness of optional strings is modelled by optTruthy.
-/

set_option maxRecDepth 100000

namespace CSAgent

/-- Python helpers: whitespace set used by str.strip (ASCII fragment). -/
def isPySpace (c : Char) : Bool :=
  c = ' ' || c = '\t' || c = '\n' || c = '\r' || c = Char.ofNat 11 || c = Char.ofNat 12

/-- Model of Python str.strip(): drop leading and trailing whitespace. -/
def pyStrip (s : String) : String :=
  String.mk (((s.data.dropWhile isPySpace).reverse.dropWhile isPySpace).reverse)

/-- Model of Python str.lower() on the ASCII fragment used by role names. -/
def pyLowerChar (c : Char) : Char :=
  if 65 ≤ c.toNat ∧ c.toNat ≤ 90 then Char.ofNat (c.toNat + 32) else c

/-- Model of Python str.lower() (ASCII fragment). -/
def pyLower (s : String) : String :=
  String.mk (s.data.map pyLowerChar)

/-- Model of Python str.split(sep) for a one-character separator. -/
def pySplitAux (sep : Char) : List Char → List Char → List (List Char)
  | [], acc => [acc.reverse]
  | c :: cs, acc =>
    if c = sep then acc.reverse :: pySplitAux sep cs []
    else pySplitAux sep cs (c :: acc)

/-- Model of Python str.split(sep) for a one-character separator. -/
def pySplit (sep : Char) (s : String) : List String :=
  (pySplitAux sep s.data []).map String.mk

/-- Model of Python sep.join(xs). -/
def pyJoin (sep : String) : List String → String
  | [] => ""
  | [x] => x
  | x :: y :: xs => x ++ sep ++ pyJoin sep (y :: xs)

/-- Python truthiness of an optional string: some nonempty string is truthy. -/
def optTruthy : Option String → Bool
  | some s => !(s == "")
  | none => false

/-- A role bound to the opaque completion capability (BaseAgent in agent.py).
The completion field models the LiteLLM chat-completion call: ok is the
returned text, error is a raised exception with its message. -/
structure BaseAgent where
  role : String
  completion : String → Except String String

/-- BaseAgent.invoke (src/src/agent.py lines 68-86): call the completion
capability; a raised error with message m is folded into the returned text
as the string Error-colon-space followed by m. -/
def invoke (a : BaseAgent) (msg : String) : String :=
  match a.completion msg with
  | Except.ok r => r
  | Except.error e => "Error: " ++ e

/-- The pattern-specific knobs read from runtime_config in agent.py.
A missing runtime_config corresponds to the default field values
(chainOutput true, empty lists, none references), matching dict.get. -/
structure RuntimeConfig where
  executionType : String := "single"
  chainOutput : Bool := true
  parallelRoles : List String := []
  aggregatorRole : Option String := none
  coordinatorRole : Option String := none
  workerRoles : List String := []
  hubRole : Option String := none
  spokeRoles : List String := []

/-- AgentService._get_role: lookup in roles_by_name. That dict is built by
inserting each agent keyed by its role in declared order, so a later agent
with the same role overwrites an earlier one; hence the reversed search. -/
def getRole (agents : List BaseAgent) (name : String) : Option BaseAgent :=
  agents.reverse.find? (fun a => a.role == name)

/-- AgentService._run_single: invoke the first declared role.
none models the IndexError Python would raise on an empty role list. -/
def runSingle (agents : List BaseAgent) (input : String) : Option String :=
  (agents.head?).map (fun a => invoke a input)

/-- The per-role results list accumulated by AgentService._run_sequential:
context starts at the input and is replaced by each output when chaining. -/
def seqResults (chain : Bool) : String → List BaseAgent → List String
  | _, [] => []
  | ctx, a :: rest =>
    let r := invoke a ctx
    r :: seqResults chain (if chain then r else ctx) rest

/-- AgentService._run_sequential (src/src/agent.py lines 344-358):
return the last result, or the sentinel for an empty role list. -/
def runSequential (chain : Bool) (agents : List BaseAgent) (input : String) : String :=
  ((seqResults chain input agents).getLast?).getD ("No results.")

/-- Participant selection in AgentService._run_parallel: the roles named in
parallel_roles when that list is non-empty, otherwise every role whose name
is not the aggregator name (a none aggregator excludes nothing, matching
the Python comparison of a string against None). -/
def parallelParticipants (rc : RuntimeConfig) (agents : List BaseAgent) : List BaseAgent :=
  if rc.parallelRoles ≠ [] then agents.filter (fun a => rc.parallelRoles.contains a.role)
  else agents.filter (fun a =>
    match rc.aggregatorRole with
    | some s => !(a.role == s)
    | none => true)

/-- The combined fan-in block built by _run_parallel, in declared role order. -/
def combinedOutput (participants : List BaseAgent) (input : String) : String :=
  pyJoin ("\n\n") (participants.map (fun a => "=== " ++ a.role ++ " ===\n" ++ invoke a input))

/-- AgentService._run_parallel (src/src/agent.py lines 360-392). The
asyncio.gather call returns results positionally aligned with the launched
tasks, which the code zips back with the participant list; completion order
cannot influence the combination because each result is stored at the index
of its task. -/
def runParallel (rc : RuntimeConfig) (agents : List BaseAgent) (input : String) : String :=
  let parallelAgents := parallelParticipants rc agents
  let results := parallelAgents.map (fun a => invoke a input)
  let combined := pyJoin ("\n\n")
    (List.zipWith (fun (a : BaseAgent) (r : String) => "=== " ++ a.role ++ " ===\n" ++ r)
      parallelAgents results)
  if optTruthy rc.aggregatorRole then
    match getRole agents (rc.aggregatorRole.getD "") with
    | some agg => invoke agg ("Aggregate and synthesize these results:\n\n" ++ combined)
    | none => combined
  else combined

/-- The decision prompt _run_coordinator sends to the coordinator role. -/
def decisionPrompt (rc : RuntimeConfig) (input : String) : String :=
  let workerList := if rc.workerRoles ≠ [] then pyJoin (", ") rc.workerRoles else "none defined"
  "You are a coordinator. Available workers: [" ++ workerList ++
    "]. For this task, decide which worker(s) to use. " ++
    "Respond with ONLY the worker name(s), comma-separated.\n\nTask: " ++ input

/-- Parsing of the coordinator reply in _run_coordinator: split on commas,
strip whitespace and lowercase each piece. -/
def selectedNames (decision : String) : List String :=
  (pySplit (',') decision).map (fun s => pyLower (pyStrip s))

/-- Coordinator resolution: the named role when coordinator_role is truthy,
otherwise the first declared role. -/
def coordResolve (rc : RuntimeConfig) (agents : List BaseAgent) : Option BaseAgent :=
  if optTruthy rc.coordinatorRole then getRole agents (rc.coordinatorRole.getD "")
  else agents.head?

/-- AgentService._run_coordinator (src/src/agent.py lines 394-435). Each
parsed name is looked up verbatim (already lowercased) in roles_by_name;
matched workers are invoked sequentially with the original input. -/
def runCoordinator (rc : RuntimeConfig) (agents : List BaseAgent) (input : String) :
    Option String :=
  match coordResolve rc agents with
  | none => runSingle agents input
  | some coord =>
    let decision := invoke coord (decisionPrompt rc input)
    let selected := selectedNames decision
    let results := selected.filterMap (fun nm =>
      (getRole agents nm).map (fun w => "=== " ++ nm ++ " ===\n" ++ invoke w input))
    if results = [] then some (invoke coord input)
    else some (invoke coord ("Synthesize these worker results into a final response:\n\n" ++
      pyJoin ("\n\n") results))

/-- The worker list the code actually matches: each parsed name paired with
the declared role found under exactly that (lowercased) name. -/
def matchedWorkers (agents : List BaseAgent) (names : List String) :
    List (String × BaseAgent) :=
  names.filterMap (fun nm => (getRole agents nm).map (fun w => (nm, w)))

/-- Case-insensitive matching of parsed names against declared role names,
following the claim wording (both sides lowercased); used only to compare
the claim against the code. -/
def ciMatchedWorkers (agents : List BaseAgent) (names : List String) : List BaseAgent :=
  names.filterMap (fun nm => agents.find? (fun a => pyLower a.role == pyLower nm))

/-- The routing prompt _run_hub_spoke sends to the hub role. -/
def routingPrompt (rc : RuntimeConfig) (input : String) : String :=
  let spokeList := if rc.spokeRoles ≠ [] then pyJoin (", ") rc.spokeRoles else "none defined"
  "You are a hub router. Available spokes: [" ++ spokeList ++
    "]. Route this request to the best spoke. " ++
    "Respond with ONLY the spoke name.\n\nRequest: " ++ input

/-- AgentService._run_hub_spoke (src/src/agent.py lines 437-467). -/
def runHubSpoke (rc : RuntimeConfig) (agents : List BaseAgent) (input : String) :
    Option String :=
  let hub? := if optTruthy rc.hubRole then getRole agents (rc.hubRole.getD "")
              else agents.head?
  match hub? with
  | none => runSingle agents input
  | some hub =>
    let decision := invoke hub (routingPrompt rc input)
    let spokeName := pyLower (pyStrip decision)
    match getRole agents spokeName with
    | some spoke => some (invoke spoke input)
    | none => some (invoke hub input)

/-- AgentService.handle_task (src/src/agent.py lines 324-338): dispatch on
the execution type string, defaulting to single for unknown values. -/
def handleTask (rc : RuntimeConfig) (agents : List BaseAgent) (input : String) :
    Option String :=
  if rc.executionType = "single" then runSingle agents input
  else if rc.executionType = "sequential" then some (runSequential rc.chainOutput agents input)
  else if rc.executionType = "parallel" then some (runParallel rc agents input)
  else if rc.executionType = "coordinator" then runCoordinator rc agents input
  else if rc.executionType = "hub-spoke" then runHubSpoke rc agents input
  else runSingle agents input

def resAgent : BaseAgent := ⟨"researcher", fun _ => Except.ok ("R1")⟩

def wriAgent : BaseAgent := ⟨"writer", fun _ => Except.ok ("W1")⟩

def searchAgent : BaseAgent := ⟨"search", fun _ => Except.ok ("S")⟩

def computeAgent : BaseAgent := ⟨"compute", fun _ => Except.ok ("C")⟩

def parConfig : RuntimeConfig := { executionType := "parallel" }

def cexConfig : RuntimeConfig :=
  { executionType := "coordinator", coordinatorRole := some ("coord"),
    workerRoles := ["Writer"] }

def coordAgent : BaseAgent :=
  ⟨"coord", fun m =>
    if m = decisionPrompt cexConfig ("task") then Except.ok ("Writer")
    else if m = "task" then Except.ok ("FALLBACK")
    else Except.ok ("SYNTH")⟩

def writerAgent : BaseAgent := ⟨"Writer", fun _ => Except.ok ("W")⟩

def cexAgents : List BaseAgent := [coordAgent, writerAgent]

def bossConfig : RuntimeConfig :=
  { executionType := "coordinator", coordinatorRole := some ("boss"),
    workerRoles := ["web"] }

def bossAgent : BaseAgent :=
  ⟨"boss", fun m =>
    if m = decisionPrompt bossConfig ("go") then Except.ok ("web")
    else if m = "go" then Except.ok ("direct") else Except.ok ("final")⟩

def webAgent : BaseAgent := ⟨"web", fun _ => Except.ok ("WEB")⟩

def braceO : Char := Char.ofNat 123

def braceC : Char := Char.ofNat 125

/-- Python dict lookup for the variable mapping (keys are unique). -/
def lookupVar (vars : List (String × String)) (k : String) : Option String :=
  Option.map Prod.snd (vars.find? (fun p => p.1 == k))

/-- Outcome of Python str.format: a missing named key raises KeyError, any
other malformed template (stray brace, empty or positional field) raises a
different exception class. -/
inductive FmtError
  | keyError
  | otherError
deriving DecidableEq

/-- Model of Python str.format(**vars) restricted to the fragment the
prompts use: plain named fields and doubled-brace escapes; conversions,
format specs and nested fields are outside the modelled fragment. The mode
argument is none while scanning text and some acc while reading a field
name; the fuel argument only makes the recursion structural, every step
consumes at least one character so listlength + 1 fuel never runs out. -/
def fmtAux (vars : List (String × String)) :
    Nat → List Char → Option (List Char) → Except FmtError (List Char)
  | _, [], none => Except.ok []
  | _, [], some _ => Except.error FmtError.otherError
  | 0, _ :: _, _ => Except.error FmtError.otherError
  | fuel + 1, c :: cs, none =>
    if c = braceO then
      match cs with
      | [] => Except.error FmtError.otherError
      | d :: ds =>
        if d = braceO then Except.map (fun r => braceO :: r) (fmtAux vars fuel ds none)
        else Except.map id (fmtAux vars fuel (d :: ds) (some []))
    else if c = braceC then
      match cs with
      | [] => Except.error FmtError.otherError
      | d :: ds =>
        if d = braceC then Except.map (fun r => braceC :: r) (fmtAux vars fuel ds none)
        else Except.error FmtError.otherError
    else Except.map (fun r => c :: r) (fmtAux vars fuel cs none)
  | fuel + 1, c :: cs, some acc =>
    if c = braceC then
      if acc = [] then Except.error FmtError.otherError
      else
        match lookupVar vars (String.mk acc) with
        | some v => Except.map (fun r => v.data ++ r) (fmtAux vars fuel cs none)
        | none => Except.error FmtError.keyError
    else if c = braceO then Except.error FmtError.otherError
    else fmtAux vars fuel cs (some (acc ++ [c]))

/-- Model of Python template.format(**vars). -/
def pyFormat (template : String) (vars : List (String × String)) : Except FmtError String :=
  Except.map String.mk (fmtAux vars (template.data.length + 1) template.data none)

/-- The variable-rendering step shared by _fetch_litellm_prompt and
_fetch_registry_prompt (src/src/agent.py lines 259-264 and 289-293):
format only when the variable mapping is non-empty and the template has an
opening brace; a KeyError returns the template unchanged; any other
exception escapes to the enclosing handler, making the whole fetch
return None. -/
def renderTemplate (vs : List (String × String)) (template : String) : Option String :=
  if vs ≠ [] ∧ template.data.contains braceO = true then
    match pyFormat template vs with
    | Except.ok s => some s
    | Except.error FmtError.keyError => some template
    | Except.error FmtError.otherError => none
  else some template

def startsDashes (s : String) : Bool :=
  match s.data with
  | c1 :: c2 :: c3 :: _ => c1 == '-' && c2 == '-' && c3 == '-'
  | _ => false

/-- AgentService._parse_dotprompt_body (src/src/agent.py lines 300-318). -/
def parseDotpromptBody (s : String) : String :=
  if startsDashes s then
    let lines := pySplit ('\n') s
    match (lines.drop 1).findIdx? (fun l => pyStrip l == "---") with
    | some j => pyStrip (pyJoin ("\n") (lines.drop (j + 2)))
    | none => pyStrip s
  else pyStrip s

/-- AgentService._fetch_litellm_prompt (src/src/agent.py lines 226-271).
resp models the HTTP outcome: none is a network failure, otherwise the
status code and the dotprompt_content field (empty when absent). -/
def fetchLitellmPrompt (apiKey : String) (resp : Option (Nat × String))
    (vs : List (String × String)) : Option String :=
  if apiKey = "" then none
  else
    match resp with
    | none => none
    | some (status, dotprompt) =>
      if status ≠ 200 then none
      else if dotprompt = "" then none
      else renderTemplate vs (parseDotpromptBody dotprompt)

/-- AgentService._fetch_registry_prompt (src/src/agent.py lines 273-298).
resp models the HTTP outcome with the template field of the JSON body. -/
def fetchRegistryPrompt (resp : Option (Nat × String))
    (vs : List (String × String)) : Option String :=
  match resp with
  | none => none
  | some (status, template) =>
    if status ≠ 200 then none
    else if template = "" then none
    else renderTemplate vs template

/-- Role configuration fields used by the two prompt resolvers. -/
structure RoleConfig where
  name : Option String := none
  promptInline : Option String := none
  promptRef : Option String := none
  instruction : Option String := none
  metadata : List (String × String) := []

/-- Python truthiness filter on an optional string result. -/
def truthyOpt : Option String → Option String
  | some s => if s = "" then none else some s
  | none => none

/-- AgentService._resolve_prompt (src/src/agent.py lines 193-224): inline,
then the LiteLLM store, then the registry (both only with a truthy
prompt_ref), then the local role file, then the per-role default. The two
network fetchers and the filesystem are passed in as functions. -/
def resolvePromptA
    (litellmFetch registryFetch : String → List (String × String) → Option String)
    (fileContent : String → Option String) (rc : RoleConfig) : String :=
  if optTruthy rc.promptInline then rc.promptInline.getD ""
  else
    let vars := rc.metadata
    let fromRef : Option String :=
      if optTruthy rc.promptRef then
        let pr := rc.promptRef.getD ""
        match truthyOpt (litellmFetch pr vars) with
        | some p => some p
        | none => truthyOpt (registryFetch pr vars)
      else none
    match fromRef with
    | some p => p
    | none =>
      let roleName := rc.name.getD ("general")
      match fileContent roleName with
      | some content => content
      | none => "You are a " ++ roleName ++ " agent."

/-- resolve_prompt (src/src/prompt_resolver.py lines 109-172): Phoenix
first (its network outcome is the phoenix argument), then the runtime
prompts mapping, then the explicit instruction field, then the registry,
then the local file, then the fixed default. promptInline is never
consulted on this path. -/
def resolvePromptB (phoenix : Option String) (prompts : List (String × String))
    (registryLookup fileLookup : String → Option String) (rc : RoleConfig) : String :=
  if optTruthy phoenix then phoenix.getD ""
  else
    let fromMapping : Option String :=
      match rc.name with
      | some rn => lookupVar prompts rn
      | none => none
    match fromMapping with
    | some p => p
    | none =>
      if optTruthy rc.instruction then rc.instruction.getD ""
      else
        let fromReg : Option String :=
          match rc.name with
          | some rn => if rn = "" then none else truthyOpt (registryLookup rn)
          | none => none
        match fromReg with
        | some p => p
        | none =>
          let fromFile : Option String :=
            match rc.name with
            | some rn => if rn = "" then none else truthyOpt (fileLookup rn)
            | none => none
          match fromFile with
          | some p => p
          | none => "You are an AI assistant."

/-- Modelled from the claim wording, not from the code: substitute each
placeholder whose key is present and leave the others in place. Used only
to compare the claimed behaviour against the code behaviour. -/
def specSubstAux (vars : List (String × String)) :
    Nat → List Char → Option (List Char) → List Char
  | _, [], none => []
  | _, [], some acc => braceO :: acc
  | 0, l, _ => l
  | fuel + 1, c :: cs, none =>
    if c = braceO then specSubstAux vars fuel cs (some [])
    else c :: specSubstAux vars fuel cs none
  | fuel + 1, c :: cs, some acc =>
    if c = braceC then
      match lookupVar vars (String.mk acc) with
      | some v => v.data ++ specSubstAux vars fuel cs none
      | none => braceO :: (acc ++ braceC :: specSubstAux vars fuel cs none)
    else specSubstAux vars fuel cs (some (acc ++ [c]))

/-- Modelled from the claim wording: per-placeholder substitution. -/
def specSubst (vars : List (String × String)) (template : String) : String :=
  String.mk (specSubstAux vars (template.data.length + 1) template.data none)

/-- The class-wide MCPToolLoader cache: entry, fetch timestamp, and a count
of discovery executions performed so far (the count instruments the model;
the code performs discovery exactly when the count grows). -/
structure ToolCacheState where
  cache : Option (List String)
  ts : Nat
  count : Nat

/-- MCPToolLoader.load_tools (src/src/mcp_tool_loader.py lines 43-58) under
single-caller (sequential) semantics, where the re-check under the lock
coincides with the fast-path check: a fresh cache entry is returned as-is,
otherwise discovery runs once and the entry and timestamp are replaced.
Time is a Nat parameter standing for time.time(). -/
def loadToolsStep (ttl now : Nat) (discovered : List String) (s : ToolCacheState) :
    List String × ToolCacheState :=
  match s.cache with
  | some c =>
    if now - s.ts < ttl then (c, s)
    else (discovered, ⟨some discovered, now, s.count + 1⟩)
  | none => (discovered, ⟨some discovered, now, s.count + 1⟩)

/-- MCPToolLoader.load_tools_sync (src/src/mcp_tool_loader.py lines 61-80):
when an event loop is already running, or when anything raises, return the
cached list (empty when no cache) without touching the cache or performing
discovery; otherwise run the async path to completion. -/
def loadToolsSync (ttl now : Nat) (discovered : List String) (loopRunning failed : Bool)
    (s : ToolCacheState) : List String × ToolCacheState :=
  if loopRunning || failed then ((s.cache.getD []), s)
  else loadToolsStep ttl now discovered s

/-- Python kwargs.get on the keyword-argument dict. -/
def lookupKw (kwargs : List (String × String)) (k : String) : Option String :=
  Option.map Prod.snd (kwargs.find? (fun p => p.1 == k))

/-- Python dict item assignment on the keyword-argument dict: overwrite in
place when the key exists, append otherwise. -/
def setKw (kwargs : List (String × String)) (k v : String) : List (String × String) :=
  if kwargs.any (fun p => p.1 == k) then
    kwargs.map (fun p => if p.1 == k then (k, v) else p)
  else kwargs ++ [(k, v)]

/-- The wrapped invocation installed by MCPToolLoader._wrap_tool_with_auth
(src/src/mcp_tool_loader.py lines 129-155): on a truthy user_id resolve one
credential for that user and the owning server, inject it as auth_token
when found, then forward to the original function. The second component of
the result records the credential lookups performed during the call. -/
def wrappedToolCall (getCred : String → String → Option String) (serverName : String)
    (originalFn : List (String × String) → String) (kwargs : List (String × String)) :
    String × List (String × String) :=
  match lookupKw kwargs ("user_id") with
  | some uid =>
    if uid = "" then (originalFn kwargs, [])
    else
      match getCred uid serverName with
      | some cred => (originalFn (setKw kwargs ("auth_token") cred), [(uid, serverName)])
      | none => (originalFn kwargs, [(uid, serverName)])
  | none => (originalFn kwargs, [])

def credFn : String → String → Option String :=
  fun u s => if u = "u1" ∧ s = "jira" then some ("tok") else none

def toolFn : List (String × String) → String :=
  fun kw => pyJoin (",") (kw.map Prod.snd)

def errAgent : BaseAgent := ⟨"err", fun _ => Except.error ("boom")⟩

def echoAgent : BaseAgent := ⟨"echo", fun m => Except.ok ("GOT:" ++ m)⟩

/-- Global configuration of a burst of concurrent loadTools callers under
the cooperative (asyncio) interleaving of MCPToolLoader.load_tools with
time frozen within the burst and an initially absent (or stale, which the
freshness check treats identically) cache. Callers are symmetric, so the
configuration counts how many sit at each suspension point: nStart before
the unlocked fast-path check, nWait parked on the mutual-exclusion lock,
nDisc inside the awaited discovery call (holding the lock), nDone finished.
cache records whether a fresh entry has been written; count is the number
of completed discovery executions. -/
structure FlightConfig where
  nStart : Nat
  nWait : Nat
  nDisc : Nat
  nDone : Nat
  cache : Bool
  count : Nat

/-- One scheduler step of the burst, following the code: a caller whose
fast-path check sees a fresh cache returns it (hit); on a miss it acquires
the free lock, re-checks, still misses and enters discovery (lockMiss), or
parks when the lock is unavailable (startWait); a parked caller that later
acquires the lock re-checks freshness and either returns the cache written
meanwhile (wakeHit) or enters discovery (wakeMiss); a discovering caller
finishes by writing the new entry, bumping the discovery count, releasing
the lock and returning (finish). -/
inductive FlightStep : FlightConfig → FlightConfig → Prop where
  | hit (c : FlightConfig) (h : 1 ≤ c.nStart) (hc : c.cache = true) :
      FlightStep c ⟨c.nStart - 1, c.nWait, c.nDisc, c.nDone + 1, c.cache, c.count⟩
  | lockMiss (c : FlightConfig) (h : 1 ≤ c.nStart) (hc : c.cache = false) (hd : c.nDisc = 0) :
      FlightStep c ⟨c.nStart - 1, c.nWait, 1, c.nDone, c.cache, c.count⟩
  | startWait (c : FlightConfig) (h : 1 ≤ c.nStart) (hc : c.cache = false) :
      FlightStep c ⟨c.nStart - 1, c.nWait + 1, c.nDisc, c.nDone, c.cache, c.count⟩
  | wakeHit (c : FlightConfig) (h : 1 ≤ c.nWait) (hd : c.nDisc = 0) (hc : c.cache = true) :
      FlightStep c ⟨c.nStart, c.nWait - 1, c.nDisc, c.nDone + 1, c.cache, c.count⟩
  | wakeMiss (c : FlightConfig) (h : 1 ≤ c.nWait) (hd : c.nDisc = 0) (hc : c.cache = false) :
      FlightStep c ⟨c.nStart, c.nWait - 1, 1, c.nDone, c.cache, c.count⟩
  | finish (c : FlightConfig) (hd : c.nDisc = 1) :
      FlightStep c ⟨c.nStart, c.nWait, 0, c.nDone + 1, true, c.count + 1⟩

/-- A burst of n first-time callers: empty cache, nothing discovered yet. -/
def flightInit (n : Nat) : FlightConfig := ⟨n, 0, 0, 0, false, 0⟩

/-- Inductive invariant of the burst: caller count is conserved, at most
one caller discovers at a time, the cache is written exactly by the single
completed discovery, a discovering caller saw a missing cache, and any
finished caller implies the one discovery already completed. -/
def FlightInv (n : Nat) (c : FlightConfig) : Prop :=
  c.nStart + c.nWait + c.nDisc + c.nDone = n
  ∧ c.nDisc ≤ 1
  ∧ c.count ≤ 1
  ∧ (c.cache = true ↔ c.count = 1)
  ∧ (c.nDisc = 1 → c.cache = false)
  ∧ (1 ≤ c.nDone → c.count = 1)

theorem seqResults_length (chain : Bool) (ctx : String) (agents : List BaseAgent) :
    (seqResults chain ctx agents).length = agents.length := by
  induction agents generalizing ctx with
  | nil => rfl
  | cons a rest ih => simp [seqResults, ih]

theorem seqResults_nochain (ctx : String) (agents : List BaseAgent) :
    seqResults false ctx agents = agents.map (fun a => invoke a ctx) := by
  induction agents generalizing ctx with
  | nil => rfl
  | cons a rest ih => simp [seqResults, ih]

theorem seqResults_head (chain : Bool) (ctx : String) (agents : List BaseAgent)
    (a : BaseAgent) (h : agents[0]? = some a) :
    (seqResults chain ctx agents)[0]? = some (invoke a ctx) := by
  cases agents with
  | nil => simp at h
  | cons b rest =>
    simp at h
    subst h
    simp [seqResults]

theorem seqResults_chain_step (ctx : String) (agents : List BaseAgent)
    (k : Nat) (a : BaseAgent) (o : String)
    (ha : agents[k + 1]? = some a)
    (ho : (seqResults true ctx agents)[k]? = some o) :
    (seqResults true ctx agents)[k + 1]? = some (invoke a o) := by
  induction agents generalizing ctx k with
  | nil => simp at ha
  | cons b rest ih =>
    cases k with
    | zero =>
      simp [seqResults] at ho ⊢
      simp at ha
      rw [ho]
      exact seqResults_head true o rest a ha
    | succ j =>
      simp [seqResults] at ho ⊢
      simp at ha
      exact ih (invoke b ctx) j ha ho

theorem zipWith_map_self {α β γ : Type} (f : α → β → γ) (g : α → β) (l : List α) :
    List.zipWith f l (l.map g) = l.map (fun a => f a (g a)) := by
  induction l with
  | nil => rfl
  | cons x xs ih => simp [ih]

/-- C1: for the sequential pattern the dispatcher invokes the roles in
declared order with a context initialized to the input; with chaining the
input of role k+1 is the output of role k, without chaining every role
receives the original input; the result is the last role output, and an
empty role list yields the literal sentinel. -/
theorem sequential_dispatch_spec (chain : Bool) (agents : List BaseAgent) (input : String) :
    runSequential chain [] input = "No results."
    ∧ (seqResults chain input agents).length = agents.length
    ∧ (chain = false → seqResults false input agents = agents.map (fun a => invoke a input))
    ∧ (∀ a, agents[0]? = some a →
        (seqResults chain input agents)[0]? = some (invoke a input))
    ∧ (chain = true → ∀ k a o, agents[k + 1]? = some a →
        (seqResults true input agents)[k]? = some o →
        (seqResults true input agents)[k + 1]? = some (invoke a o))
    ∧ (∀ r, (seqResults chain input agents).getLast? = some r →
        runSequential chain agents input = r) := by
  refine ⟨rfl, seqResults_length chain input agents, ?_, ?_, ?_, ?_⟩
  · intro _
    exact seqResults_nochain input agents
  · intro a ha
    exact seqResults_head chain input agents a ha
  · intro _ k a o ha ho
    exact seqResults_chain_step input agents k a o ha ho
  · intro r hr
    simp [runSequential, hr]

theorem sequential_dispatch_spec_witness :
    runSequential true [] "X" = "No results."
    ∧ (seqResults true "X" [resAgent, wriAgent])[1]? = some (invoke wriAgent ("R1"))
    ∧ runSequential true [resAgent, wriAgent] "X" = "W1" := by
  have h := sequential_dispatch_spec true [resAgent, wriAgent] "X"
  refine ⟨h.1, ?_, ?_⟩
  · exact h.2.2.2.2.1 rfl 0 wriAgent ("R1") (by rfl) (by rfl)
  · exact h.2.2.2.2.2 ("W1") (by rfl)

/-- C2: parallel participants are the roles named in parallelRoles when
non-empty, else all roles except the aggregator; the combined result joins
the per-role blocks with a blank line in declared role order; when the
aggregator is set and names a declared role the dispatcher returns the
aggregator output on the synthesis prompt embedding the combined block. -/
theorem parallel_dispatch_spec (rc : RuntimeConfig) (agents : List BaseAgent) (input : String) :
    (rc.parallelRoles ≠ [] →
      parallelParticipants rc agents = agents.filter (fun a => rc.parallelRoles.contains a.role))
    ∧ (rc.parallelRoles = [] →
      parallelParticipants rc agents = agents.filter (fun a =>
        match rc.aggregatorRole with
        | some s => !(a.role == s)
        | none => true))
    ∧ (optTruthy rc.aggregatorRole = false →
      runParallel rc agents input = combinedOutput (parallelParticipants rc agents) input)
    ∧ (∀ nm agg, rc.aggregatorRole = some nm → nm ≠ "" → getRole agents nm = some agg →
      runParallel rc agents input =
        invoke agg ("Aggregate and synthesize these results:\n\n" ++
          combinedOutput (parallelParticipants rc agents) input)) := by
  have hcomb : pyJoin ("\n\n")
      (List.zipWith (fun (a : BaseAgent) (r : String) => "=== " ++ a.role ++ " ===\n" ++ r)
        (parallelParticipants rc agents)
        ((parallelParticipants rc agents).map (fun a => invoke a input)))
      = combinedOutput (parallelParticipants rc agents) input := by
    rw [zipWith_map_self]
    rfl
  refine ⟨?_, ?_, ?_, ?_⟩
  · intro h
    simp [parallelParticipants, h]
  · intro h
    simp [parallelParticipants, h]
  · intro h
    simp [runParallel, h, hcomb]
  · intro nm agg hnm hne hrole
    have ht : optTruthy (some nm) = true := by
      simp [optTruthy, hne]
    simp [runParallel, hnm, ht, hrole, hcomb]

theorem parallel_dispatch_spec_witness :
    runParallel parConfig [searchAgent, computeAgent] "Q"
      = "=== search ===\nS\n\n=== compute ===\nC" := by
  have h := parallel_dispatch_spec parConfig [searchAgent, computeAgent] "Q"
  rw [h.2.2.1 rfl]
  rfl

theorem filterMap_map_pair (g : String → Option BaseAgent) (h : String → BaseAgent → String)
    (l : List String) :
    l.filterMap (fun nm => (g nm).map (h nm)) =
      (l.filterMap (fun nm => (g nm).map (fun w => (nm, w)))).map (fun p => h p.1 p.2) := by
  induction l with
  | nil => rfl
  | cons x xs ih =>
    cases hx : g x <;> simp [List.filterMap_cons, hx, ih]

/-- C3 (amended): the coordinator reply is split on commas, each piece is
whitespace-trimmed and lowercased, and then matched verbatim against the
declared role names (so the match is case-insensitive only when declared
names are lowercase); every matched worker is invoked with the original
input; when nothing matches the coordinator is invoked directly on the
original input and that result is returned, otherwise the coordinator is
invoked on the synthesis prompt over the matched worker blocks. -/
theorem coordinator_dispatch_amended (rc : RuntimeConfig) (agents : List BaseAgent)
    (input : String) (coord : BaseAgent) (hc : coordResolve rc agents = some coord) :
    (matchedWorkers agents (selectedNames (invoke coord (decisionPrompt rc input))) = [] →
      runCoordinator rc agents input = some (invoke coord input))
    ∧ (∀ m, matchedWorkers agents (selectedNames (invoke coord (decisionPrompt rc input))) = m →
        m ≠ [] →
        runCoordinator rc agents input = some (invoke coord
          ("Synthesize these worker results into a final response:\n\n" ++
            pyJoin ("\n\n") (m.map (fun p => "=== " ++ p.1 ++ " ===\n" ++ invoke p.2 input))))) := by
  have hres : (selectedNames (invoke coord (decisionPrompt rc input))).filterMap (fun nm =>
        (getRole agents nm).map (fun w => "=== " ++ nm ++ " ===\n" ++ invoke w input))
      = (matchedWorkers agents (selectedNames (invoke coord (decisionPrompt rc input)))).map
          (fun p => "=== " ++ p.1 ++ " ===\n" ++ invoke p.2 input) := by
    exact filterMap_map_pair (getRole agents)
      (fun nm w => "=== " ++ nm ++ " ===\n" ++ invoke w input) _
  constructor
  · intro hm
    simp [runCoordinator, hc, hres, hm]
  · intro m hm hne
    rw [← hm]
    simp [runCoordinator, hc, hres, hm, hne]

/-- C3 counterexample: the coordinator replies with the exact declared name
Writer; a case-insensitive match against the declared names exists (the
claim would dispatch to the Writer worker), yet the code lowercases the
parsed name, finds no role under the key writer, matches nothing, and falls
back to invoking the coordinator directly on the original input. -/
theorem coordinator_ci_counterexample :
    selectedNames (invoke coordAgent (decisionPrompt cexConfig ("task"))) = ["writer"]
    ∧ ciMatchedWorkers cexAgents ["writer"] = [writerAgent]
    ∧ matchedWorkers cexAgents ["writer"] = []
    ∧ runCoordinator cexConfig cexAgents ("task") = some ("FALLBACK")
    ∧ ("FALLBACK" : String) = invoke coordAgent ("task")
    ∧ ("FALLBACK" : String) ≠ "SYNTH" := by
  refine ⟨by rfl, by rfl, by rfl, by rfl, by rfl, by decide⟩

theorem coordinator_dispatch_amended_witness :
    runCoordinator bossConfig [bossAgent, webAgent] "go" = some ("final") := by
  have h := coordinator_dispatch_amended bossConfig [bossAgent, webAgent] "go" bossAgent
    (by rfl)
  have h2 := h.2 [("web", webAgent)] (by rfl) (by simp)
  rw [h2]
  rfl

/-- C4 counterexample: the factory-path resolver, one of the two cited
prompt-resolution implementations, returns a successful Phoenix network
result even though the role spec carries a non-empty promptInline, so the
claim fails as a statement about every prompt resolution in the code. -/
theorem inline_priority_counterexample :
    resolvePromptB (some ("PHX")) [] (fun _ => none) (fun _ => none)
      { name := some ("r1"), promptInline := some ("INLINE") } = "PHX"
    ∧ ("PHX" : String) ≠ "INLINE" := by
  exact ⟨rfl, by decide⟩

/-- C4 (amended): in AgentService._resolve_prompt a non-empty promptInline
is returned immediately, short-circuiting every other source including
successful network fetches; the factory-path resolver
prompt_resolver.resolve_prompt never consults promptInline, and a truthy
Phoenix network result is returned there regardless of promptInline. -/
theorem inline_priority_amended
    (litellmFetch registryFetch : String → List (String × String) → Option String)
    (fileContent : String → Option String)
    (phoenix : Option String) (prompts : List (String × String))
    (registryLookup fileLookup : String → Option String)
    (rc : RoleConfig) :
    (∀ s, rc.promptInline = some s → s ≠ "" →
      resolvePromptA litellmFetch registryFetch fileContent rc = s)
    ∧ (∀ p, phoenix = some p → p ≠ "" →
      resolvePromptB phoenix prompts registryLookup fileLookup rc = p) := by
  constructor
  · intro s hs hne
    simp [resolvePromptA, optTruthy, hs, hne]
  · intro p hp hne
    simp [resolvePromptB, optTruthy, hp, hne]

theorem inline_priority_amended_witness :
    resolvePromptA (fun _ _ => some ("NET")) (fun _ _ => some ("REG"))
      (fun _ => some ("FILE"))
      { name := some ("r"), promptInline := some ("INL"), promptRef := some ("ref") }
      = "INL" := by
  have h := inline_priority_amended (fun _ _ => some ("NET")) (fun _ _ => some ("REG"))
    (fun _ => some ("FILE")) (some ("PHX")) [] (fun _ => none) (fun _ => none)
    { name := some ("r"), promptInline := some ("INL"), promptRef := some ("ref") }
  exact h.1 ("INL") rfl (by decide)

/-- C5 counterexample: with body Hello-name-x and only name mapped, the
claim predicts the present key is substituted and the missing one kept,
but str.format raises KeyError and the code returns the template with no
substitution at all. -/
theorem placeholder_partial_counterexample :
    fetchLitellmPrompt ("k") (some (200, "Hello \x7bname\x7d \x7bx\x7d")) [("name", "Bob")]
      = some ("Hello \x7bname\x7d \x7bx\x7d")
    ∧ specSubst [("name", "Bob")] ("Hello \x7bname\x7d \x7bx\x7d") = "Hello Bob \x7bx\x7d"
    ∧ ("Hello \x7bname\x7d \x7bx\x7d" : String) ≠ "Hello Bob \x7bx\x7d" := by
  exact ⟨rfl, rfl, by decide⟩

/-- C5 (amended): substitution is all-or-nothing: when format succeeds the
fully substituted text is returned, and when any placeholder key is
missing the KeyError is caught and the template is returned entirely
unsubstituted rather than failing; the greet scenario with body
Hello-name and name mapped to Bob resolves to Hello Bob. -/
theorem placeholder_render_amended (vs : List (String × String)) (template : String)
    (hv : vs ≠ []) (hb : template.data.contains braceO = true) :
    (∀ s, pyFormat template vs = Except.ok s →
      renderTemplate vs template = some s)
    ∧ (pyFormat template vs = Except.error FmtError.keyError →
      renderTemplate vs template = some template)
    ∧ fetchLitellmPrompt ("k") (some (200, "Hello \x7bname\x7d")) [("name", "Bob")]
      = some ("Hello Bob") := by
  have hb2 : braceO ∈ template.data := by
    simpa using hb
  refine ⟨?_, ?_, by rfl⟩
  · intro s hs
    simp [renderTemplate, hv, hb2, hs]
  · intro hs
    simp [renderTemplate, hv, hb2, hs]

theorem placeholder_render_amended_witness :
    renderTemplate [("name", "Bob")] ("Hi \x7bq\x7d") = some ("Hi \x7bq\x7d") := by
  have h := placeholder_render_amended [("name", "Bob")] ("Hi \x7bq\x7d")
    (by decide) (by rfl)
  exact h.2.1 (by rfl)

/-- C6: two sequential loadTools calls whose second happens within the TTL
window of the first trigger at most one discovery (the second returns the
refreshed list without discovering), and a call after TTL expiry triggers
exactly one more discovery, replacing the cached entry and timestamp. -/
theorem tool_cache_ttl_spec (ttl t1 t2 : Nat) (d1 d2 : List String) (s0 : ToolCacheState) :
    (t2 - t1 < ttl →
      ((loadToolsStep ttl t2 d2 (loadToolsStep ttl t1 d1 s0).2).2).count ≤ s0.count + 1)
    ∧ (s0.cache = none → t2 - t1 < ttl →
      loadToolsStep ttl t2 d2 (loadToolsStep ttl t1 d1 s0).2
        = (d1, (loadToolsStep ttl t1 d1 s0).2))
    ∧ (∀ c, s0.cache = some c → ttl ≤ t2 - s0.ts →
      loadToolsStep ttl t2 d2 s0 = (d2, ⟨some d2, t2, s0.count + 1⟩)) := by
  refine ⟨?_, ?_, ?_⟩
  · intro h12
    cases hc : s0.cache with
    | none =>
      simp [loadToolsStep, hc, h12]
    | some c =>
      by_cases hfresh : t1 - s0.ts < ttl
      · simp only [loadToolsStep, hc, hfresh, if_pos]
        split <;> simp
      · simp [loadToolsStep, hc, hfresh, h12]
  · intro hc h12
    simp [loadToolsStep, hc, h12]
  · intro c hc hexp
    have : ¬ (t2 - s0.ts < ttl) := by omega
    simp [loadToolsStep, hc, this]

theorem tool_cache_ttl_spec_witness :
    ((loadToolsStep 300 10 ["t1"] (loadToolsStep 300 5 ["t1"] ⟨none, 0, 0⟩).2).2).count ≤ 1
    ∧ loadToolsStep 300 400 ["t2"] ⟨some ["t1"], 5, 1⟩
        = (["t2"], ⟨some ["t2"], 400, 2⟩) := by
  have h := tool_cache_ttl_spec 300 5 10 ["t1"] ["t1"] ⟨none, 0, 0⟩
  have h2 := tool_cache_ttl_spec 300 5 400 ["t1"] ["t2"] ⟨some ["t1"], 5, 1⟩
  exact ⟨h.1 (by decide), h2.2.2 ["t1"] rfl (by decide)⟩

/-- C10: when an event loop is already running (or any exception occurs)
the synchronous wrapper returns the currently cached list, or the empty
list when no cache exists, with no discovery performed and the cache state
untouched, even for a stale or absent cache. -/
theorem load_tools_sync_spec (ttl now : Nat) (d : List String) (lr fl : Bool)
    (s : ToolCacheState) :
    (lr = true ∨ fl = true →
      loadToolsSync ttl now d lr fl s = (s.cache.getD [], s))
    ∧ (lr = true → s.cache = none → (loadToolsSync ttl now d lr fl s).1 = [])
    ∧ (lr = true → ((loadToolsSync ttl now d lr fl s).2).count = s.count) := by
  refine ⟨?_, ?_, ?_⟩
  · intro h
    rcases h with h | h <;> simp [loadToolsSync, h]
  · intro h hc
    simp [loadToolsSync, h, hc]
  · intro h
    simp [loadToolsSync, h]

theorem load_tools_sync_spec_witness :
    loadToolsSync 300 999 ["t"] true false ⟨none, 0, 0⟩ = ([], ⟨none, 0, 0⟩) := by
  have h := load_tools_sync_spec 300 999 ["t"] true false ⟨none, 0, 0⟩
  exact h.1 (Or.inl rfl)

/-- C8: a wrapped invocation carrying a user identifier performs exactly
one credential lookup for that user and the owning server and, when a
credential is found, injects it as the auth token argument before
forwarding; an invocation carrying no user identifier performs zero
lookups and forwards the call unchanged. -/
theorem credential_wrap_spec (getCred : String → String → Option String)
    (server : String) (fn : List (String × String) → String)
    (kwargs : List (String × String)) :
    (∀ uid, lookupKw kwargs ("user_id") = some uid → uid ≠ "" →
      (wrappedToolCall getCred server fn kwargs).2 = [(uid, server)]
      ∧ (∀ cred, getCred uid server = some cred →
          (wrappedToolCall getCred server fn kwargs).1
            = fn (setKw kwargs ("auth_token") cred))
      ∧ (getCred uid server = none →
          (wrappedToolCall getCred server fn kwargs).1 = fn kwargs))
    ∧ (lookupKw kwargs ("user_id") = none →
      wrappedToolCall getCred server fn kwargs = (fn kwargs, [])) := by
  constructor
  · intro uid hu hne
    refine ⟨?_, ?_, ?_⟩
    · cases hcred : getCred uid server <;>
        simp [wrappedToolCall, hu, hne, hcred]
    · intro cred hcred
      simp [wrappedToolCall, hu, hne, hcred]
    · intro hcred
      simp [wrappedToolCall, hu, hne, hcred]
  · intro hu
    simp [wrappedToolCall, hu]

theorem credential_wrap_spec_witness :
    (wrappedToolCall credFn ("jira") toolFn [("user_id", "u1"), ("q", "v")]).2
      = [("u1", "jira")]
    ∧ (wrappedToolCall credFn ("jira") toolFn [("user_id", "u1"), ("q", "v")]).1
      = toolFn [("user_id", "u1"), ("q", "v"), ("auth_token", "tok")]
    ∧ wrappedToolCall credFn ("jira") toolFn [("q", "v")] = (toolFn [("q", "v")], []) := by
  have h := credential_wrap_spec credFn ("jira") toolFn [("user_id", "u1"), ("q", "v")]
  have h1 := h.1 ("u1") (by rfl) (by decide)
  refine ⟨h1.1, ?_, ?_⟩
  · have h2 := h1.2.1 ("tok") (by rfl)
    rw [h2]
    rfl
  · have h3 := credential_wrap_spec credFn ("jira") toolFn [("q", "v")]
    exact h3.2 (by rfl)

theorem runSingle_isSome (agents : List BaseAgent) (input : String) (h : agents ≠ []) :
    (runSingle agents input).isSome := by
  cases agents with
  | nil => exact absurd rfl h
  | cons a rest => rfl

theorem runCoordinator_isSome (rc : RuntimeConfig) (agents : List BaseAgent)
    (input : String) (h : agents ≠ []) :
    (runCoordinator rc agents input).isSome := by
  unfold runCoordinator
  cases hc : coordResolve rc agents with
  | none => exact runSingle_isSome agents input h
  | some coord =>
    dsimp only
    split <;> rfl

theorem runHubSpoke_isSome (rc : RuntimeConfig) (agents : List BaseAgent)
    (input : String) (h : agents ≠ []) :
    (runHubSpoke rc agents input).isSome := by
  unfold runHubSpoke
  dsimp only
  split
  · exact runSingle_isSome agents input h
  · split <;> rfl

theorem handleTask_total (rc : RuntimeConfig) (agents : List BaseAgent)
    (input : String) (h : agents ≠ []) :
    (handleTask rc agents input).isSome := by
  unfold handleTask
  split
  · exact runSingle_isSome agents input h
  · split
    · rfl
    · split
      · rfl
      · split
        · exact runCoordinator_isSome rc agents input h
        · split
          · exact runHubSpoke_isSome rc agents input h
          · exact runSingle_isSome agents input h

/-- C9: a completion error with message m is folded into the returned text
Error-colon-space-m instead of propagating; that text is recorded as the
role output and flows on (in a chained sequential run the next role
receives it as input); and the top-level dispatch returns a value for every
execution type whenever at least one role exists, so role-invocation
failures never raise. -/
theorem error_folding_spec (a b : BaseAgent) (rest : List BaseAgent)
    (rc : RuntimeConfig) (agents : List BaseAgent) (input msg m : String) :
    (a.completion msg = Except.error m → invoke a msg = "Error: " ++ m)
    ∧ (agents ≠ [] → (handleTask rc agents input).isSome)
    ∧ (a.completion input = Except.error m →
        (seqResults true input (a :: b :: rest))[0]? = some ("Error: " ++ m)
        ∧ (seqResults true input (a :: b :: rest))[1]?
            = some (invoke b ("Error: " ++ m))) := by
  refine ⟨?_, fun hne => handleTask_total rc agents input hne, ?_⟩
  · intro h
    simp [invoke, h]
  · intro h
    have hinv : invoke a input = "Error: " ++ m := by simp [invoke, h]
    constructor
    · simp [seqResults, hinv]
    · have hb0 : (b :: rest)[0]? = some b := by simp
      have := seqResults_head true ("Error: " ++ m) (b :: rest) b hb0
      simp [seqResults, hinv, this]

theorem error_folding_spec_witness :
    invoke errAgent "hi" = "Error: boom"
    ∧ (handleTask { executionType := "sequential" } [errAgent, echoAgent] "hi").isSome
    ∧ (seqResults true "hi" [errAgent, echoAgent])[1]? = some ("GOT:Error: boom") := by
  have h := error_folding_spec errAgent echoAgent []
    { executionType := "sequential" } [errAgent, echoAgent] "hi" "hi" ("boom")
  refine ⟨h.1 rfl, h.2.1 (by simp), ?_⟩
  have h3 := (h.2.2 rfl).2
  rw [h3]
  rfl

theorem flightInv_init (n : Nat) : FlightInv n (flightInit n) := by
  refine ⟨by simp [flightInit], by simp [flightInit], by simp [flightInit], ?_, ?_, ?_⟩
  · simp [flightInit]
  · simp [flightInit]
  · simp [flightInit]

theorem flightInv_step {n : Nat} {c c2 : FlightConfig}
    (hstep : FlightStep c c2) (hinv : FlightInv n c) : FlightInv n c2 := by
  obtain ⟨hsum, hd1, hcnt, hiff, hdc, hdone⟩ := hinv
  cases hstep with
  | hit h hc =>
    exact ⟨by simp; omega, hd1, hcnt, hiff, hdc, fun _ => hiff.mp hc⟩
  | lockMiss h hc hd =>
    exact ⟨by simp; omega, by simp, hcnt, hiff, fun _ => hc, hdone⟩
  | startWait h hc =>
    exact ⟨by simp; omega, hd1, hcnt, hiff, hdc, hdone⟩
  | wakeHit h hd hc =>
    exact ⟨by simp; omega, hd1, hcnt, hiff, hdc, fun _ => hiff.mp hc⟩
  | wakeMiss h hd hc =>
    exact ⟨by simp; omega, by simp, hcnt, hiff, fun _ => hc, hdone⟩
  | finish hd =>
    have hcf : c.cache = false := hdc hd
    have hc0 : c.count = 0 := by
      by_cases h1 : c.count = 1
      · exact absurd (hiff.mpr h1) (by simp [hcf])
      · omega
    refine ⟨by simp; omega, by simp, by simp [hc0], by simp [hc0], ?_, ?_⟩
    · intro hcontra
      simp at hcontra
    · intro _
      simp [hc0]

theorem flightInv_reach {n : Nat} {c : FlightConfig}
    (h : Relation.ReflTransGen FlightStep (flightInit n) c) : FlightInv n c := by
  induction h with
  | refl => exact flightInv_init n
  | tail hsteps hstep ih => exact flightInv_step hstep ih

/-- C7: for every burst of n greater-equal 1 concurrent first-time callers
of loadTools over an empty (or stale) cache, every complete cooperative
schedule performs exactly one discovery execution: callers that win the
lock re-check freshness after acquisition and skip discovery when another
caller already refreshed the cache. -/
theorem single_flight_spec (n : Nat) (c : FlightConfig) (hn : 1 ≤ n)
    (hreach : Relation.ReflTransGen FlightStep (flightInit n) c)
    (hs : c.nStart = 0) (hw : c.nWait = 0) (hd : c.nDisc = 0) :
    c.count = 1 := by
  have hinv := flightInv_reach hreach
  obtain ⟨hsum, _, _, _, _, hdone⟩ := hinv
  apply hdone
  omega

theorem single_flight_spec_witness :
    (⟨0, 0, 0, 2, true, 1⟩ : FlightConfig).count = 1 := by
  have a1 : Relation.ReflTransGen FlightStep (flightInit 2) ⟨1, 0, 1, 0, false, 0⟩ :=
    Relation.ReflTransGen.single (FlightStep.lockMiss (flightInit 2) (by decide) rfl rfl)
  have a2 : Relation.ReflTransGen FlightStep (flightInit 2) ⟨0, 1, 1, 0, false, 0⟩ :=
    Relation.ReflTransGen.tail a1
      (FlightStep.startWait ⟨1, 0, 1, 0, false, 0⟩ (by decide) rfl)
  have a3 : Relation.ReflTransGen FlightStep (flightInit 2) ⟨0, 1, 0, 1, true, 1⟩ :=
    Relation.ReflTransGen.tail a2 (FlightStep.finish ⟨0, 1, 1, 0, false, 0⟩ rfl)
  have a4 : Relation.ReflTransGen FlightStep (flightInit 2) ⟨0, 0, 0, 2, true, 1⟩ :=
    Relation.ReflTransGen.tail a3
      (FlightStep.wakeHit ⟨0, 1, 0, 1, true, 1⟩ (by decide) rfl rfl)
  exact single_flight_spec 2 ⟨0, 0, 0, 2, true, 1⟩ (by decide) a4 rfl rfl rfl

end CSAgent
